import Mathlib

/-!
Verification development for the uc-api model crate: the WebSocket message
envelope (`src/ws/mod.rs`), the locale-fallback helper (`src/util.rs`), the
identifier validation regexes (`src/lib.rs`) and the media-player feature
enum (`src/entity.rs`), shallowly embedded in Lean.
-/

namespace UcApi

/-- Model of `serde_json::Value`. Numbers are modelled as integers, which
covers every numeric value this crate's envelope code produces (u32 ids,
u16 codes); objects keep the field order in which they were built. -/
inductive Json where
  | null : Json
  | bool : Bool → Json
  | num : Int → Json
  | str : String → Json
  | arr : List Json → Json
  | obj : List (String × Json) → Json

/-- Outcome of `serde_json::to_value` on a caller-supplied payload: either the
generic value or a serialization error (`serde_json::Error`, modelled by its
message). Constructors that take a `T: Serialize` payload in Rust take this
outcome as input here. -/
abbrev SerResult := Except String Json

/-- `EventCategory` from `src/ws/mod.rs`. -/
inductive EventCategory where
  | device : EventCategory
  | entity : EventCategory
  | remote : EventCategory
  | ui : EventCategory
deriving DecidableEq

/-- Derived serde serialization of `EventCategory`
(`rename_all = "SCREAMING_SNAKE_CASE"`). -/
def EventCategory.wireStr : EventCategory → String
  | .device => "DEVICE"
  | .entity => "ENTITY"
  | .remote => "REMOTE"
  | .ui => "UI"

/-- `WsResultMsgData` from `src/ws/mod.rs`: default payload of a `result`
response message. -/
structure WsResultMsgData where
  code : String
  message : String

/-- `WsResultMsgData::new`. -/
def WsResultMsgData.new (code message : String) : WsResultMsgData :=
  ⟨code, message⟩

/-- `serde_json::to_value` on a `WsResultMsgData`. The derived `Serialize`
implementation emits the two string fields in declaration order and cannot
fail (string serialization in serde_json is infallible), so the result is
always `ok`. -/
def wsResultMsgDataToValue (d : WsResultMsgData) : SerResult :=
  .ok (.obj [("code", .str d.code), ("message", .str d.message)])

/-- Timestamps (`chrono::DateTime<Utc>`) are abstracted to a tick count; the
envelope code only ever stores the current time or leaves the field absent,
and no claim depends on the chrono wire format. -/
abbrev Ts := Nat

/-- The lenient envelope `WsMessage` from `src/ws/mod.rs`: every field
optional, unknown top-level fields captured in `extra`
(`#[serde(flatten)]`, modelled as an ordered key-value list). -/
structure WsMessage where
  kind : Option String
  id : Option Nat
  req_id : Option Nat
  msg : Option String
  code : Option Nat
  cat : Option EventCategory
  ts : Option Ts
  msg_data : Option Json
  extra : List (String × Json)

/-- `Default` for `WsMessage`: all fields absent, no extra fields. -/
def WsMessage.default : WsMessage :=
  ⟨none, none, none, none, none, none, none, none, []⟩

/-- `WsMessage::event`. The Rust code reads `Utc::now()`; the current time is
passed explicitly here. -/
def WsMessage.event (msg : String) (cat : Option EventCategory) (now : Ts)
    (msg_data : Json) : WsMessage :=
  { WsMessage.default with
    kind := some "event"
    msg := some msg
    cat := cat
    ts := some now
    msg_data := some msg_data }

/-- `WsMessage::simple_request`. -/
def WsMessage.simple_request (id : Nat) (msg : String) : WsMessage :=
  { WsMessage.default with
    kind := some "req"
    id := some id
    msg := some msg }

/-- `WsMessage::request`: propagates a payload serialization error with `?`. -/
def WsMessage.request (id : Nat) (msg : String) (ser : SerResult) :
    Except String WsMessage := do
  let v ← ser
  pure { WsMessage.default with
    kind := some "req"
    id := some id
    msg := some msg
    msg_data := some v }

/-- `WsMessage::response_json`. -/
def WsMessage.response_json (req_id : Nat) (msg : String) (msg_data : Json) :
    WsMessage :=
  { WsMessage.default with
    kind := some "resp"
    req_id := some req_id
    msg := some msg
    code := some 200
    msg_data := some msg_data }

/-- The fixed internal-error body substituted when a response payload fails to
serialize: `json!({ "code": "INTERNAL_ERROR", "message": "Error serializing result"})`. -/
def internalErrorBody : Json :=
  .obj [("code", .str "INTERNAL_ERROR"), ("message", .str "Error serializing result")]

/-- `WsMessage::response`: masks a payload serialization failure with a
`msg="result"`, `code=500` envelope carrying the fixed internal-error body. -/
def WsMessage.response (req_id : Nat) (msg : String) (ser : SerResult) :
    WsMessage :=
  match ser with
  | .ok v =>
    { WsMessage.default with
      kind := some "resp"
      req_id := some req_id
      msg := some msg
      code := some 200
      msg_data := some v }
  | .error _ =>
    { WsMessage.default with
      kind := some "resp"
      req_id := some req_id
      msg := some "result"
      code := some 500
      msg_data := some internalErrorBody }

/-- `WsMessage::error`. The Rust code unwraps the serialization of the
`WsResultMsgData` payload with `expect`; the panic is modelled by `none`. -/
def WsMessage.error (req_id : Nat) (code : Nat) (msg_data : WsResultMsgData) :
    Option WsMessage :=
  match wsResultMsgDataToValue msg_data with
  | .ok v =>
    some { WsMessage.default with
      kind := some "resp"
      req_id := some req_id
      msg := some "result"
      code := some code
      msg_data := some v }
  | .error _ => none

/-- The strict request envelope `WsRequest` from `src/ws/mod.rs`. -/
structure WsRequest where
  kind : String
  id : Nat
  msg : String
  msg_data : Option Json

/-- `WsRequest::new`: propagates a payload serialization error with `?`. -/
def WsRequest.new (id : Nat) (msg : String) (ser : SerResult) :
    Except String WsRequest := do
  let v ← ser
  pure { kind := "req", id := id, msg := msg, msg_data := some v }

/-- `impl From<WsRequest> for WsMessage`. -/
def WsMessage.ofRequest (r : WsRequest) : WsMessage :=
  { WsMessage.default with
    kind := some r.kind
    id := some r.id
    msg := some r.msg
    msg_data := r.msg_data }

/-- The strict response envelope `WsResponse` from `src/ws/mod.rs`. -/
structure WsResponse where
  kind : String
  req_id : Nat
  msg : String
  code : Nat
  msg_data : Option Json

/-- `WsResponse::new`: masks a payload serialization failure like
`WsMessage::response`. -/
def WsResponse.new (req_id : Nat) (msg : String) (ser : SerResult) :
    WsResponse :=
  match ser with
  | .ok v =>
    { kind := "resp", req_id := req_id, msg := msg, code := 200, msg_data := some v }
  | .error _ =>
    { kind := "resp", req_id := req_id, msg := "result", code := 500
      msg_data := some internalErrorBody }

/-- `WsResponse::error`; the `expect` panic is modelled by `none`. -/
def WsResponse.error (req_id : Nat) (code : Nat) (msg_data : WsResultMsgData) :
    Option WsResponse :=
  match wsResultMsgDataToValue msg_data with
  | .ok v =>
    some { kind := "resp", req_id := req_id, msg := "result", code := code
           msg_data := some v }
  | .error _ => none

/-- `WsResponse::missing_field`. -/
def WsResponse.missing_field (req_id : Nat) (field : String) : WsResponse :=
  { kind := "resp", req_id := req_id, msg := "result", code := 400
    msg_data := some (.obj [("code", .str "BAD_REQUEST"),
                            ("message", .str ("Missing field: " ++ field))]) }

/-- `WsResponse::not_found`. -/
def WsResponse.not_found (req_id : Nat) (message : String) : WsResponse :=
  { kind := "resp", req_id := req_id, msg := "result", code := 404
    msg_data := some (.obj [("code", .str "NOT_FOUND"), ("message", .str message)]) }

/-- `WsResponse::result`. -/
def WsResponse.result (req_id : Nat) (code : Nat) : WsResponse :=
  { kind := "resp", req_id := req_id, msg := "result", code := code
    msg_data := none }

/-- `impl From<WsResponse> for WsMessage`. -/
def WsMessage.ofResponse (r : WsResponse) : WsMessage :=
  { WsMessage.default with
    kind := some r.kind
    req_id := some r.req_id
    msg := some r.msg
    code := some r.code
    msg_data := r.msg_data }

/-! ### JSON (de)serialization of the envelopes

`WsMessage` carries `#[skip_serializing_none]`: an absent optional field is
omitted from the serialized object entirely. The strict structs mark only
`msg_data` with `skip_serializing_if = "Option::is_none"`. Deserialization of
the lenient `WsMessage` parses each known field (serde maps JSON `null` to an
absent `Option`) and collects all unknown keys into `extra` via
`#[serde(flatten)]`. -/

/-- Emit one optional field: present fields become one key-value pair, absent
fields are skipped (`skip_serializing_none`). -/
def optField (k : String) : Option Json → List (String × Json)
  | some j => [(k, j)]
  | none => []

/-- Serde serialization of `WsMessage` to a JSON object, fields in declaration
order, flattened `extra` fields appended. -/
def WsMessage.toJson (m : WsMessage) : Json :=
  .obj (optField "kind" (m.kind.map .str) ++
        optField "id" (m.id.map fun n => .num n) ++
        optField "req_id" (m.req_id.map fun n => .num n) ++
        optField "msg" (m.msg.map .str) ++
        optField "code" (m.code.map fun n => .num n) ++
        optField "cat" (m.cat.map fun c => .str c.wireStr) ++
        optField "ts" (m.ts.map fun t => .num t) ++
        optField "msg_data" m.msg_data ++
        m.extra)

/-- Serde serialization of `WsRequest`: required fields in declaration order,
`msg_data` skipped when absent. -/
def WsRequest.toJson (r : WsRequest) : Json :=
  .obj ([("kind", .str r.kind), ("id", .num r.id), ("msg", .str r.msg)] ++
        optField "msg_data" r.msg_data)

/-- Serde serialization of `WsResponse`: required fields in declaration order,
`msg_data` skipped when absent. -/
def WsResponse.toJson (r : WsResponse) : Json :=
  .obj ([("kind", .str r.kind), ("req_id", .num r.req_id), ("msg", .str r.msg),
         ("code", .num r.code)] ++
        optField "msg_data" r.msg_data)

/-- Parse a JSON value as a string. -/
def parseStrJ : Json → Except String String
  | .str s => .ok s
  | _ => .error "expected string"

/-- Parse a JSON value as a `u32`. -/
def parseU32J : Json → Except String Nat
  | .num n => if 0 ≤ n ∧ n < 4294967296 then .ok n.toNat else .error "invalid u32"
  | _ => .error "expected number"

/-- Parse a JSON value as a `u16`. -/
def parseU16J : Json → Except String Nat
  | .num n => if 0 ≤ n ∧ n < 65536 then .ok n.toNat else .error "invalid u16"
  | _ => .error "expected number"

/-- Parse a JSON value as an `EventCategory` (serde derived, SCREAMING_SNAKE_CASE). -/
def parseCatJ : Json → Except String EventCategory
  | .str "DEVICE" => .ok .device
  | .str "ENTITY" => .ok .entity
  | .str "REMOTE" => .ok .remote
  | .str "UI" => .ok .ui
  | _ => .error "unknown event category"

/-- Parse a JSON value as a timestamp (abstracted, see `Ts`). -/
def parseTsJ : Json → Except String Ts
  | .num n => if 0 ≤ n then .ok n.toNat else .error "invalid ts"
  | _ => .error "expected timestamp"

/-- Serde deserialization of an optional field: a missing key and an explicit
JSON `null` both give an absent value; anything else must parse. -/
def parseOptWith (f : Json → Except String α) : Option Json → Except String (Option α)
  | none => .ok none
  | some .null => .ok none
  | some j => (f j).map some

/-- The known top-level field names of `WsMessage`; every other key is a
flattened extra field. -/
def wsMessageKeys : List String :=
  ["kind", "id", "req_id", "msg", "code", "cat", "ts", "msg_data"]

/-- Serde deserialization of the lenient `WsMessage` from a JSON value. -/
def WsMessage.fromJson (j : Json) : Except String WsMessage :=
  match j with
  | .obj fs => do
    let kind ← parseOptWith parseStrJ (fs.lookup "kind")
    let id ← parseOptWith parseU32J (fs.lookup "id")
    let req_id ← parseOptWith parseU32J (fs.lookup "req_id")
    let msg ← parseOptWith parseStrJ (fs.lookup "msg")
    let code ← parseOptWith parseU16J (fs.lookup "code")
    let cat ← parseOptWith parseCatJ (fs.lookup "cat")
    let ts ← parseOptWith parseTsJ (fs.lookup "ts")
    let msg_data ← parseOptWith (fun v => .ok v) (fs.lookup "msg_data")
    pure { kind := kind, id := id, req_id := req_id, msg := msg, code := code,
           cat := cat, ts := ts, msg_data := msg_data,
           extra := fs.filter fun kv => !(wsMessageKeys.contains kv.1) }
  | _ => .error "expected JSON object"

/-- Top-level keys of a serialized JSON object. -/
def Json.keys : Json → List String
  | .obj fs => fs.map Prod.fst
  | _ => []

/-! ### Locale fallback helper (`src/util.rs`)

`HashMap<String, String>` is modelled as an ordered association list: the list
order stands for the unspecified iteration order of the hash map, and the
hash-map key uniqueness invariant becomes a `Nodup` hypothesis where needed. -/

/-- Characters of the first component of Rust `str::split_once`: the part of
the string before the first occurrence of the separator, or `none` when the
separator does not occur. -/
def takeUntilChar : List Char → Char → Option (List Char)
  | [], _ => none
  | x :: xs, c => if x = c then some [] else (takeUntilChar xs c).map (x :: ·)

/-- `lang.split_once('_').map(|(l, _)| l).unwrap_or("en")` from
`text_from_language_map`. -/
def shortLangOf (lang : String) : String :=
  match takeUntilChar lang.data '_' with
  | some pre => String.mk pre
  | none => "en"

/-- Rust `str::starts_with` on character lists. -/
def charsStartWith : List Char → List Char → Bool
  | _, [] => true
  | [], _ :: _ => false
  | a :: as, b :: bs => a = b && charsStartWith as bs

/-- Rust `k.starts_with(p)`. -/
def rsStartsWith (k p : String) : Bool :=
  charsStartWith k.data p.data

/-- `text_from_language_map` from `src/util.rs`: exact tag, then base
language, then some other country variant of the base, then `"en"`, then the
first entry of the map. -/
def text_from_language_map (map : Option (List (String × String)))
    (lang : String) : Option String :=
  match map with
  | none => none
  | some m =>
    let short_lang := shortLangOf lang
    (((((m.lookup lang).or
      (m.findSome? fun kv => if kv.1 = short_lang then some kv.2 else none)).or
      (m.findSome? fun kv => if rsStartsWith kv.1 (short_lang ++ "_") then some kv.2 else none)).or
      (m.lookup "en")).or
      (m.head?.map Prod.snd))

/-! ### Identifier validation regexes (`src/lib.rs`)

`REGEX_ID_CHARS` is `^[a-zA-Z0-9-_]{1,}$`. `REGEX_ICON_ID` is the raw string
`r"^[a-zA-Z0-9-_\\.:]{1,}$"`: inside a character class `\\` denotes one
literal backslash, so the class is the id characters plus `\`, `.` and `:`.
With both anchors and the `{1,}` quantifier, a string matches exactly when it
is nonempty and every character lies in the class. -/

/-- Membership in the character class `[a-zA-Z0-9-_]`. -/
def idClassChar (c : Char) : Bool :=
  ('a' ≤ c && c ≤ 'z') || ('A' ≤ c && c ≤ 'Z') || ('0' ≤ c && c ≤ '9') ||
    c = '-' || c = '_'

/-- Membership in the character class `[a-zA-Z0-9-_\\.:]` (id characters plus
backslash, dot and colon). -/
def iconClassChar (c : Char) : Bool :=
  idClassChar c || c = '\\' || c = '.' || c = ':'

/-- Whether `REGEX_ID_CHARS` matches the whole string. -/
def regexIdCharsMatches (s : String) : Bool :=
  !s.data.isEmpty && s.data.all idClassChar

/-- Whether `REGEX_ICON_ID` matches the whole string. -/
def regexIconIdMatches (s : String) : Bool :=
  !s.data.isEmpty && s.data.all iconClassChar

/-- Modelled from the spec: the icon id character set the spec describes,
`[A-Za-z0-9_-]` plus `.` and `:` (no backslash). Used to compare the compiled
regex against the sentence of the spec. -/
def specIconClassChar (c : Char) : Bool :=
  idClassChar c || c = '.' || c = ':'

/-! ### Media-player feature enum (`src/entity.rs`)

`MediaPlayerFeature` derives serde (`rename_all = "snake_case"`) and strum
(`serialize_all = "snake_case"`) string conversions; the `DPad` variant
carries explicit overrides `#[serde(rename = "dpad")]` and
`#[strum(serialize = "dpad")]`. The derived implementations are match tables
over the variants, transcribed here literally. -/

/-- `MediaPlayerFeature` from `src/entity.rs`. -/
inductive MediaPlayerFeature where
  | OnOff | Toggle | Volume | VolumeUpDown | MuteToggle | Mute | Unmute
  | PlayPause | Stop | Next | Previous | FastForward | Rewind | Repeat
  | Shuffle | Seek | MediaDuration | MediaPosition | MediaTitle | MediaArtist
  | MediaAlbum | MediaImageUrl | MediaType | DPad | Numpad | Home | Menu
  | ContextMenu | Guide | Info | ColorButtons | ChannelSwitcher | SelectSource
  | SelectSoundMode | Eject | OpenClose | AudioTrack | Subtitle | Record
  | Settings
deriving DecidableEq

namespace MediaPlayerFeature

/-- The derived serde `Serialize` string of each variant
(`rename_all = "snake_case"`, with the `rename = "dpad"` override). -/
def serdeStr : MediaPlayerFeature → String
  | .OnOff => "on_off"
  | .Toggle => "toggle"
  | .Volume => "volume"
  | .VolumeUpDown => "volume_up_down"
  | .MuteToggle => "mute_toggle"
  | .Mute => "mute"
  | .Unmute => "unmute"
  | .PlayPause => "play_pause"
  | .Stop => "stop"
  | .Next => "next"
  | .Previous => "previous"
  | .FastForward => "fast_forward"
  | .Rewind => "rewind"
  | .Repeat => "repeat"
  | .Shuffle => "shuffle"
  | .Seek => "seek"
  | .MediaDuration => "media_duration"
  | .MediaPosition => "media_position"
  | .MediaTitle => "media_title"
  | .MediaArtist => "media_artist"
  | .MediaAlbum => "media_album"
  | .MediaImageUrl => "media_image_url"
  | .MediaType => "media_type"
  | .DPad => "dpad"
  | .Numpad => "numpad"
  | .Home => "home"
  | .Menu => "menu"
  | .ContextMenu => "context_menu"
  | .Guide => "guide"
  | .Info => "info"
  | .ColorButtons => "color_buttons"
  | .ChannelSwitcher => "channel_switcher"
  | .SelectSource => "select_source"
  | .SelectSoundMode => "select_sound_mode"
  | .Eject => "eject"
  | .OpenClose => "open_close"
  | .AudioTrack => "audio_track"
  | .Subtitle => "subtitle"
  | .Record => "record"
  | .Settings => "settings"

/-- The derived strum `AsRefStr`/`Display` string of each variant
(`serialize_all = "snake_case"`, with the `serialize = "dpad"` override): the
same table the serde derive produces. -/
def strumStr (f : MediaPlayerFeature) : String :=
  serdeStr f

/-- The derived parse table (serde `Deserialize` and strum `EnumString` accept
exactly the serialized strings). -/
def parseFeature (s : String) : Option MediaPlayerFeature :=
  match s with
  | "on_off" => some .OnOff
  | "toggle" => some .Toggle
  | "volume" => some .Volume
  | "volume_up_down" => some .VolumeUpDown
  | "mute_toggle" => some .MuteToggle
  | "mute" => some .Mute
  | "unmute" => some .Unmute
  | "play_pause" => some .PlayPause
  | "stop" => some .Stop
  | "next" => some .Next
  | "previous" => some .Previous
  | "fast_forward" => some .FastForward
  | "rewind" => some .Rewind
  | "repeat" => some .Repeat
  | "shuffle" => some .Shuffle
  | "seek" => some .Seek
  | "media_duration" => some .MediaDuration
  | "media_position" => some .MediaPosition
  | "media_title" => some .MediaTitle
  | "media_artist" => some .MediaArtist
  | "media_album" => some .MediaAlbum
  | "media_image_url" => some .MediaImageUrl
  | "media_type" => some .MediaType
  | "dpad" => some .DPad
  | "numpad" => some .Numpad
  | "home" => some .Home
  | "menu" => some .Menu
  | "context_menu" => some .ContextMenu
  | "guide" => some .Guide
  | "info" => some .Info
  | "color_buttons" => some .ColorButtons
  | "channel_switcher" => some .ChannelSwitcher
  | "select_source" => some .SelectSource
  | "select_sound_mode" => some .SelectSoundMode
  | "eject" => some .Eject
  | "open_close" => some .OpenClose
  | "audio_track" => some .AudioTrack
  | "subtitle" => some .Subtitle
  | "record" => some .Record
  | "settings" => some .Settings
  | _ => none

end MediaPlayerFeature

/-! ## Claim theorems -/

/-- C1: for every req_id, msg and payload, `WsMessage::response` and
`WsResponse::new` always return an envelope and never propagate an error:
on successful payload serialization the envelope has kind "resp", the given
req_id and msg, code 200 and the serialized payload as msg_data; on
serialization failure it instead has msg "result", code 500 and the fixed
internal-error body. -/
theorem ws_response_constructors_mask_serialization_failure
    (req_id : Nat) (msg : String) (ser : SerResult) :
    (∀ v, ser = .ok v →
      WsMessage.response req_id msg ser =
        { kind := some "resp", id := none, req_id := some req_id, msg := some msg,
          code := some 200, cat := none, ts := none, msg_data := some v,
          extra := [] } ∧
      WsResponse.new req_id msg ser =
        { kind := "resp", req_id := req_id, msg := msg, code := 200,
          msg_data := some v }) ∧
    (∀ e, ser = .error e →
      WsMessage.response req_id msg ser =
        { kind := some "resp", id := none, req_id := some req_id,
          msg := some "result", code := some 500, cat := none, ts := none,
          msg_data := some internalErrorBody, extra := [] } ∧
      WsResponse.new req_id msg ser =
        { kind := "resp", req_id := req_id, msg := "result", code := 500,
          msg_data := some internalErrorBody }) := by
  constructor
  · rintro v rfl
    exact ⟨rfl, rfl⟩
  · rintro e rfl
    exact ⟨rfl, rfl⟩

/-- Witness for C1: concrete instances of both branches. -/
theorem ws_response_constructors_mask_serialization_failure_witness :
    WsMessage.response 7 "abc" (.ok (.str "x")) =
      { kind := some "resp", id := none, req_id := some 7, msg := some "abc",
        code := some 200, cat := none, ts := none, msg_data := some (.str "x"),
        extra := [] } ∧
    WsResponse.new 7 "abc" (.error "boom") =
      { kind := "resp", req_id := 7, msg := "result", code := 500,
        msg_data := some internalErrorBody } :=
  ⟨((ws_response_constructors_mask_serialization_failure 7 "abc"
      (.ok (.str "x"))).1 (.str "x") rfl).1,
   ((ws_response_constructors_mask_serialization_failure 7 "abc"
      (.error "boom")).2 "boom" rfl).2⟩

/-- C3: `WsMessage::request` and `WsRequest::new` surface a payload
serialization failure as an explicit error, on success build the kind "req"
envelope with the given id, msg and serialized payload, and payload
serialization is the only way they can fail. -/
theorem ws_request_constructors_surface_serialization_failure
    (id : Nat) (msg : String) (ser : SerResult) :
    (∀ v, ser = .ok v →
      WsMessage.request id msg ser =
        .ok { kind := some "req", id := some id, req_id := none, msg := some msg,
              code := none, cat := none, ts := none, msg_data := some v,
              extra := [] } ∧
      WsRequest.new id msg ser =
        .ok { kind := "req", id := id, msg := msg, msg_data := some v }) ∧
    (∀ e, ser = .error e →
      WsMessage.request id msg ser = .error e ∧
      WsRequest.new id msg ser = .error e) ∧
    ((∃ e, WsMessage.request id msg ser = .error e) ↔ ∃ e, ser = .error e) ∧
    ((∃ e, WsRequest.new id msg ser = .error e) ↔ ∃ e, ser = .error e) := by
  refine ⟨?_, ?_, ?_, ?_⟩
  · rintro v rfl
    exact ⟨rfl, rfl⟩
  · rintro e rfl
    exact ⟨rfl, rfl⟩
  · cases ser <;> simp [WsMessage.request, Except.bind]
  · cases ser <;> simp [WsRequest.new, Except.bind]

/-- Witness for C3: concrete instances of both branches. -/
theorem ws_request_constructors_surface_serialization_failure_witness :
    WsMessage.request 5 "cmd" (.ok (.num 2)) =
      .ok { kind := some "req", id := some 5, req_id := none, msg := some "cmd",
            code := none, cat := none, ts := none, msg_data := some (.num 2),
            extra := [] } ∧
    WsRequest.new 5 "cmd" (.error "oops") = .error "oops" :=
  ⟨((ws_request_constructors_surface_serialization_failure 5 "cmd"
      (.ok (.num 2))).1 (.num 2) rfl).1,
   ((ws_request_constructors_surface_serialization_failure 5 "cmd"
      (.error "oops")).2.1 "oops" rfl).2⟩

/-- C4: the strict-to-lenient conversions are lossless: every field of the
strict value appears unchanged in the `WsMessage` (an absent optional msg_data
staying absent), and all fields of the other kinds stay absent. -/
theorem strict_to_lenient_conversion_lossless (r : WsRequest) (p : WsResponse) :
    ((WsMessage.ofRequest r).kind = some r.kind ∧
     (WsMessage.ofRequest r).id = some r.id ∧
     (WsMessage.ofRequest r).msg = some r.msg ∧
     (WsMessage.ofRequest r).msg_data = r.msg_data ∧
     (WsMessage.ofRequest r).req_id = none ∧
     (WsMessage.ofRequest r).code = none ∧
     (WsMessage.ofRequest r).cat = none ∧
     (WsMessage.ofRequest r).ts = none ∧
     (WsMessage.ofRequest r).extra = []) ∧
    ((WsMessage.ofResponse p).kind = some p.kind ∧
     (WsMessage.ofResponse p).req_id = some p.req_id ∧
     (WsMessage.ofResponse p).msg = some p.msg ∧
     (WsMessage.ofResponse p).code = some p.code ∧
     (WsMessage.ofResponse p).msg_data = p.msg_data ∧
     (WsMessage.ofResponse p).id = none ∧
     (WsMessage.ofResponse p).cat = none ∧
     (WsMessage.ofResponse p).ts = none ∧
     (WsMessage.ofResponse p).extra = []) :=
  ⟨⟨rfl, rfl, rfl, rfl, rfl, rfl, rfl, rfl, rfl⟩,
   ⟨rfl, rfl, rfl, rfl, rfl, rfl, rfl, rfl, rfl⟩⟩

/-- C6: the directional-pad media-player feature serializes to exactly "dpad"
via both the serde and the strum derived conversions, never to "d_pad", and
parsing "dpad" yields the variant back while "d_pad" does not parse. -/
theorem media_player_dpad_wire_string :
    MediaPlayerFeature.serdeStr .DPad = "dpad" ∧
    MediaPlayerFeature.strumStr .DPad = "dpad" ∧
    MediaPlayerFeature.serdeStr .DPad ≠ "d_pad" ∧
    MediaPlayerFeature.parseFeature "dpad" = some .DPad ∧
    MediaPlayerFeature.parseFeature "d_pad" = none ∧
    MediaPlayerFeature.parseFeature (MediaPlayerFeature.serdeStr .DPad) =
      some .DPad :=
  ⟨rfl, rfl, by decide, rfl, rfl, rfl⟩

/-- C8: every envelope built by a `WsMessage` constructor carries only the
fields of its own kind and an empty extra map: request constructors leave
req_id, code, cat and ts absent; response constructors leave id, cat and ts
absent; the event constructor leaves id, req_id and code absent. -/
theorem constructors_set_only_own_kind_fields :
    (∀ id msg, (WsMessage.simple_request id msg).req_id = none ∧
      (WsMessage.simple_request id msg).code = none ∧
      (WsMessage.simple_request id msg).cat = none ∧
      (WsMessage.simple_request id msg).ts = none ∧
      (WsMessage.simple_request id msg).extra = []) ∧
    (∀ id msg ser env, WsMessage.request id msg ser = .ok env →
      env.req_id = none ∧ env.code = none ∧ env.cat = none ∧ env.ts = none ∧
      env.extra = []) ∧
    (∀ req_id msg v, (WsMessage.response_json req_id msg v).id = none ∧
      (WsMessage.response_json req_id msg v).cat = none ∧
      (WsMessage.response_json req_id msg v).ts = none ∧
      (WsMessage.response_json req_id msg v).extra = []) ∧
    (∀ req_id msg ser, (WsMessage.response req_id msg ser).id = none ∧
      (WsMessage.response req_id msg ser).cat = none ∧
      (WsMessage.response req_id msg ser).ts = none ∧
      (WsMessage.response req_id msg ser).extra = []) ∧
    (∀ req_id code d env, WsMessage.error req_id code d = some env →
      env.id = none ∧ env.cat = none ∧ env.ts = none ∧ env.extra = []) ∧
    (∀ msg cat now md, (WsMessage.event msg cat now md).id = none ∧
      (WsMessage.event msg cat now md).req_id = none ∧
      (WsMessage.event msg cat now md).code = none ∧
      (WsMessage.event msg cat now md).extra = []) := by
  refine ⟨fun id msg => ⟨rfl, rfl, rfl, rfl, rfl⟩, ?_,
    fun req_id msg v => ⟨rfl, rfl, rfl, rfl⟩, ?_, ?_,
    fun msg cat now md => ⟨rfl, rfl, rfl, rfl⟩⟩
  · intro id msg ser env h
    cases ser with
    | ok v =>
      obtain rfl : _ = env := Except.ok.inj h
      exact ⟨rfl, rfl, rfl, rfl, rfl⟩
    | error e => cases h
  · intro req_id msg ser
    cases ser <;> exact ⟨rfl, rfl, rfl, rfl⟩
  · intro req_id code d env h
    obtain rfl : _ = env := Option.some.inj h
    exact ⟨rfl, rfl, rfl, rfl⟩

/-- Witness for C8: concrete request and error envelopes. -/
theorem constructors_set_only_own_kind_fields_witness :
    ({ kind := some "req", id := some 1, req_id := none, msg := some "a",
       code := none, cat := none, ts := none, msg_data := some (.str "x"),
       extra := [] } : WsMessage).req_id = none ∧
    ({ kind := some "resp", id := none, req_id := some 1, msg := some "result",
       code := some 418, cat := none, ts := none,
       msg_data := some (.obj [("code", .str "a"), ("message", .str "b")]),
       extra := [] } : WsMessage).id = none :=
  ⟨(constructors_set_only_own_kind_fields.2.1 1 "a" (.ok (.str "x")) _ rfl).1,
   (constructors_set_only_own_kind_fields.2.2.2.2.1 1 418
      (WsResultMsgData.new "a" "b") _ rfl).1⟩

/-- C9: for every req_id, code and `WsResultMsgData`, `WsMessage::error` and
`WsResponse::error` return normally (the serialization of the two-string
payload always succeeds, so the panic behind the `expect` is unreachable) and
the envelope has kind "resp", msg "result", the given code unchanged and the
serialized {code, message} object as msg_data. -/
theorem ws_error_constructors_never_panic (req_id code : Nat)
    (d : WsResultMsgData) :
    WsMessage.error req_id code d =
      some { kind := some "resp", id := none, req_id := some req_id,
             msg := some "result", code := some code, cat := none, ts := none,
             msg_data := some (.obj [("code", .str d.code),
                                     ("message", .str d.message)]),
             extra := [] } ∧
    WsResponse.error req_id code d =
      some { kind := "resp", req_id := req_id, msg := "result", code := code,
             msg_data := some (.obj [("code", .str d.code),
                                     ("message", .str d.message)]) } :=
  ⟨rfl, rfl⟩

/-- C10: `WsResponse::missing_field` serializes to exactly the documented JSON
object, with no other keys; in particular at (123, "foobar") it yields the
literal object from the spec. -/
theorem missing_field_exact_json (req_id : Nat) (field : String) :
    WsResponse.toJson (WsResponse.missing_field req_id field) =
      .obj [("kind", .str "resp"), ("req_id", .num req_id),
            ("msg", .str "result"), ("code", .num 400),
            ("msg_data", .obj [("code", .str "BAD_REQUEST"),
                               ("message", .str ("Missing field: " ++ field))])] ∧
    WsResponse.toJson (WsResponse.missing_field 123 "foobar") =
      .obj [("kind", .str "resp"), ("req_id", .num 123), ("msg", .str "result"),
            ("code", .num 400),
            ("msg_data", .obj [("code", .str "BAD_REQUEST"),
                               ("message", .str "Missing field: foobar")])] :=
  ⟨rfl, rfl⟩

/-- The id character class is the alphanumerics plus hyphen and underscore. -/
theorem idClassChar_iff (c : Char) :
    idClassChar c = true ↔ (c.isAlpha ∨ c.isDigit ∨ c = '-' ∨ c = '_') := by
  simp only [idClassChar, Char.isAlpha, Char.isUpper, Char.isLower, Char.isDigit,
    Bool.or_eq_true, Bool.and_eq_true, decide_eq_true_eq, ge_iff_le]
  constructor
  · rintro ((((⟨h1, h2⟩ | ⟨h1, h2⟩) | ⟨h1, h2⟩) | h) | h) <;>
      simp_all [Char.le_def]
  · rintro ((⟨h1, h2⟩ | ⟨h1, h2⟩) | ⟨h1, h2⟩ | h | h) <;>
      simp_all [Char.le_def]

/-- C7 (amended): a string matches `REGEX_ID_CHARS` exactly when it is
nonempty and every character is in `[A-Za-z0-9_-]`; a string matches
`REGEX_ICON_ID` exactly when it is nonempty and every character is in that set
plus backslash, dot and colon — the raw-string escape `\\` in the source
pattern puts a literal backslash in the class, beyond the dot and colon the
spec lists. -/
theorem id_validation_regex_character_sets (s : String) :
    (regexIdCharsMatches s = true ↔
      s ≠ "" ∧ ∀ c ∈ s.data, (c.isAlpha ∨ c.isDigit ∨ c = '-' ∨ c = '_')) ∧
    (regexIconIdMatches s = true ↔
      s ≠ "" ∧ ∀ c ∈ s.data,
        (c.isAlpha ∨ c.isDigit ∨ c = '-' ∨ c = '_' ∨ c = '\\' ∨ c = '.' ∨
          c = ':')) := by
  have hempty : s ≠ "" ↔ ¬s.data.isEmpty = true := by
    rw [List.isEmpty_iff]
    exact not_congr (Iff.symm ⟨fun h => h ▸ rfl, fun h => by
      cases s; simp_all⟩) |>.symm |>.trans (Iff.rfl)
  constructor
  · simp only [regexIdCharsMatches, Bool.and_eq_true, List.all_eq_true,
      Bool.not_eq_true', Bool.not_eq_true, idClassChar_iff]
    constructor
    · rintro ⟨h1, h2⟩
      exact ⟨hempty.mpr (by simp [h1]), h2⟩
    · rintro ⟨h1, h2⟩
      refine ⟨?_, h2⟩
      have := hempty.mp h1
      simpa using this
  · simp only [regexIconIdMatches, Bool.and_eq_true, List.all_eq_true,
      Bool.not_eq_true', Bool.not_eq_true]
    have hicon : ∀ c, iconClassChar c = true ↔
        (c.isAlpha ∨ c.isDigit ∨ c = '-' ∨ c = '_' ∨ c = '\\' ∨ c = '.' ∨
          c = ':') := by
      intro c
      simp only [iconClassChar, Bool.or_eq_true, decide_eq_true_eq,
        idClassChar_iff]
      tauto
    constructor
    · rintro ⟨h1, h2⟩
      exact ⟨hempty.mpr (by simp [h1]), fun c hc => (hicon c).mp (h2 c hc)⟩
    · rintro ⟨h1, h2⟩
      refine ⟨?_, fun c hc => (hicon c).mpr (h2 c hc)⟩
      have := hempty.mp h1
      simpa using this

/-- Counterexample for C7 as stated: the icon id pattern accepts the string
consisting of one backslash, which is not in the character set the claim
describes (id characters plus dot and colon). -/
theorem icon_regex_accepts_backslash_cex :
    regexIconIdMatches "\\" = true ∧
    ¬(("\\" : String) ≠ "" ∧
      ∀ c ∈ ("\\" : String).data, specIconClassChar c = true) := by
  constructor
  · decide
  · intro h
    have := h.2 '\\' (by decide)
    simp [specIconClassChar, idClassChar] at this

/-- In an association list with unique keys (the hash-map invariant), a member
pair is found by `lookup`. -/
theorem lookup_eq_some_of_mem : ∀ {m : List (String × String)},
    (m.map Prod.fst).Nodup → ∀ {k v : String}, (k, v) ∈ m →
    m.lookup k = some v := by
  intro m
  induction m with
  | nil =>
    intro _ k v h
    cases h
  | cons hd tl ih =>
    intro hnd k v hmem
    obtain ⟨k', v'⟩ := hd
    rw [List.map_cons, List.nodup_cons] at hnd
    rcases List.mem_cons.mp hmem with h | h
    · simp only [Prod.mk.injEq] at h
      obtain ⟨rfl, rfl⟩ := h
      simp
    · by_cases hk : k = k'
      · subst hk
        exact absurd (List.mem_map_of_mem Prod.fst h) hnd.1
      · have hbeq : (k == k') = false := beq_false_of_ne hk
        rw [List.lookup_cons, hbeq]
        exact ih hnd.2 h

/-- The base-language step of the cascade, written in the source as a
`find_map` over the entries, is a `lookup` for the base key. -/
theorem findSome?_key_eq_lookup (m : List (String × String)) (k : String) :
    (m.findSome? fun kv => if kv.1 = k then some kv.2 else none) =
      m.lookup k := by
  induction m with
  | nil => rfl
  | cons hd tl ih =>
    obtain ⟨k', v'⟩ := hd
    by_cases h : k' = k
    · subst h
      simp [List.findSome?_cons, List.lookup_cons]
    · have hbeq : (k == k') = false := beq_false_of_ne (Ne.symm h)
      rw [List.findSome?_cons, List.lookup_cons, hbeq]
      simp [h, ih]

/-- `split_once` finds nothing exactly when the separator is absent. -/
theorem takeUntilChar_eq_none : ∀ (cs : List Char) (c : Char),
    takeUntilChar cs c = none ↔ c ∉ cs := by
  intro cs c
  induction cs with
  | nil => simp [takeUntilChar]
  | cons x xs ih =>
    by_cases h : x = c
    · subst h
      simp [takeUntilChar]
    · simp [takeUntilChar, h, Option.map_eq_none, ih, Ne.symm h]

/-- `split_once` returns the characters before the first separator. -/
theorem takeUntilChar_append (pre post : List Char) (c : Char)
    (h : c ∉ pre) : takeUntilChar (pre ++ c :: post) c = some pre := by
  induction pre with
  | nil => simp [takeUntilChar]
  | cons x xs ih =>
    have hx : ¬x = c := fun hx => h (hx ▸ List.mem_cons_self x xs)
    have hxs : c ∉ xs := fun hc => h (List.mem_cons_of_mem x hc)
    simp [takeUntilChar, hx, ih hxs]

/-- Unfolding of `text_from_language_map` on a present map. -/
theorem text_from_language_map_some (m : List (String × String))
    (lang : String) :
    text_from_language_map (some m) lang =
      (((((m.lookup lang).or
        (m.findSome? fun kv =>
          if kv.1 = shortLangOf lang then some kv.2 else none)).or
        (m.findSome? fun kv =>
          if rsStartsWith kv.1 (shortLangOf lang ++ "_") then some kv.2
          else none)).or
        (m.lookup "en")).or
        (m.head?.map Prod.snd)) := rfl

/-- C2: `text_from_language_map` resolves by the ordered cascade — exact tag,
base language (the tag truncated at the first underscore, defaulting to "en"
for a tag with no separator), some key of the form base followed by an
underscore, the exact key "en", then some entry of the map — and returns none
exactly when the map is absent or empty. The hash map is modelled as an
association list with unique keys in iteration order. -/
theorem text_from_language_map_cascade (m : List (String × String))
    (lang : String) (hnd : (m.map Prod.fst).Nodup) :
    ('_' ∉ lang.data → shortLangOf lang = "en") ∧
    (∀ pre post, lang.data = pre ++ '_' :: post → '_' ∉ pre →
      shortLangOf lang = String.mk pre) ∧
    (∀ v, (lang, v) ∈ m → text_from_language_map (some m) lang = some v) ∧
    (m.lookup lang = none → ∀ v, (shortLangOf lang, v) ∈ m →
      text_from_language_map (some m) lang = some v) ∧
    (m.lookup lang = none → m.lookup (shortLangOf lang) = none →
      ∀ k v, (k, v) ∈ m → rsStartsWith k (shortLangOf lang ++ "_") = true →
      ∃ k' v', (k', v') ∈ m ∧ rsStartsWith k' (shortLangOf lang ++ "_") = true ∧
        text_from_language_map (some m) lang = some v') ∧
    (m.lookup lang = none → m.lookup (shortLangOf lang) = none →
      (∀ k v, (k, v) ∈ m → rsStartsWith k (shortLangOf lang ++ "_") = false) →
      ∀ v, ("en", v) ∈ m → text_from_language_map (some m) lang = some v) ∧
    (m.lookup lang = none → m.lookup (shortLangOf lang) = none →
      (∀ k v, (k, v) ∈ m → rsStartsWith k (shortLangOf lang ++ "_") = false) →
      m.lookup "en" = none → ∀ kv, m.head? = some kv →
      kv ∈ m ∧ text_from_language_map (some m) lang = some kv.2) ∧
    (text_from_language_map (some m) lang = none ↔ m = []) ∧
    text_from_language_map none lang = none := by
  have hshort := findSome?_key_eq_lookup m (shortLangOf lang)
  refine ⟨?_, ?_, ?_, ?_, ?_, ?_, ?_, ?_, rfl⟩
  · intro h
    unfold shortLangOf
    rw [(takeUntilChar_eq_none lang.data '_').mpr h]
  · intro pre post hdecomp hpre
    unfold shortLangOf
    rw [hdecomp, takeUntilChar_append pre post '_' hpre]
  · intro v hmem
    rw [text_from_language_map_some, lookup_eq_some_of_mem hnd hmem]
    simp
  · intro h1 v hmem
    rw [text_from_language_map_some, h1, hshort,
      lookup_eq_some_of_mem hnd hmem]
    simp
  · intro h1 h2 k v hmem hpfx
    rw [text_from_language_map_some, h1, hshort, h2]
    rcases hC : m.findSome? fun kv =>
        if rsStartsWith kv.1 (shortLangOf lang ++ "_") then some kv.2
        else none with _ | w
    · exfalso
      have := (List.findSome?_eq_none_iff.mp hC) (k, v) hmem
      rw [hpfx] at this
      simp at this
    · obtain ⟨⟨k', v'⟩, hmem', hif⟩ := List.exists_of_findSome?_eq_some hC
      by_cases hcond : rsStartsWith k' (shortLangOf lang ++ "_") = true
      · rw [if_pos hcond] at hif
        obtain rfl := Option.some.inj hif
        exact ⟨k', v', hmem', hcond, by simp [hC]⟩
      · rw [if_neg hcond] at hif
        cases hif
  · intro h1 h2 h3 v hmem
    rw [text_from_language_map_some, h1, hshort, h2]
    have hC : (m.findSome? fun kv =>
        if rsStartsWith kv.1 (shortLangOf lang ++ "_") then some kv.2
        else none) = none := by
      apply List.findSome?_eq_none_iff.mpr
      rintro ⟨k, v'⟩ hkv
      rw [h3 k v' hkv]
      simp
    rw [hC, lookup_eq_some_of_mem hnd hmem]
    simp
  · intro h1 h2 h3 h4 kv hkv
    have hC : (m.findSome? fun kv =>
        if rsStartsWith kv.1 (shortLangOf lang ++ "_") then some kv.2
        else none) = none := by
      apply List.findSome?_eq_none_iff.mpr
      rintro ⟨k, v'⟩ hkv'
      rw [h3 k v' hkv']
      simp
    refine ⟨List.mem_of_mem_head? (by simp [hkv]), ?_⟩
    rw [text_from_language_map_some, h1, hshort, h2, hC, h4, hkv]
    simp
  · rw [text_from_language_map_some]
    simp only [Option.or_eq_none]
    constructor
    · rintro ⟨-, h⟩
      rcases m with _ | ⟨kv, tl⟩
      · rfl
      · simp at h
    · rintro rfl
      simp

/-- Witness for C2: the doc-example map, with base-language fallback for the
tag de_AT and the English fallback for the separator-free tag it. -/
theorem text_from_language_map_cascade_witness :
    text_from_language_map
      (some [("en", "English fallback"), ("de", "German fallback"),
             ("de_DE", "German"), ("de_CH", "Swiss German"),
             ("en_UK", "UK English")]) "de_AT" = some "German fallback" ∧
    text_from_language_map
      (some [("en", "English fallback"), ("de", "German fallback"),
             ("de_DE", "German"), ("de_CH", "Swiss German"),
             ("en_UK", "UK English")]) "it" = some "English fallback" := by
  constructor
  · exact (text_from_language_map_cascade
      [("en", "English fallback"), ("de", "German fallback"),
       ("de_DE", "German"), ("de_CH", "Swiss German"), ("en_UK", "UK English")]
      "de_AT" (by decide)).2.2.2.1 (by decide) "German fallback" (by decide)
  · exact (text_from_language_map_cascade
      [("en", "English fallback"), ("de", "German fallback"),
       ("de_DE", "German"), ("de_CH", "Swiss German"), ("en_UK", "UK English")]
      "it" (by decide)).2.2.2.1 (by decide) "English fallback" (by decide)

/-! ### JSON round-trip lemmas -/

/-- Bind on `Except` discharges an ok value. -/
theorem except_bind_ok (a : α) (f : α → Except String β) :
    (Except.ok a : Except String α) >>= f = f a := rfl

/-- A serialized u32 parses back to itself. -/
theorem parseU32J_num (n : Nat) (h : n < 4294967296) :
    parseU32J (.num (n : Int)) = .ok n := by
  have h0 : (0 : Int) ≤ (n : Int) := Int.natCast_nonneg n
  have h1 : (n : Int) < 4294967296 := by exact_mod_cast h
  simp [parseU32J, h0, h1]

/-- A serialized u16 parses back to itself. -/
theorem parseU16J_num (n : Nat) (h : n < 65536) :
    parseU16J (.num (n : Int)) = .ok n := by
  have h0 : (0 : Int) ≤ (n : Int) := Int.natCast_nonneg n
  have h1 : (n : Int) < 65536 := by exact_mod_cast h
  simp [parseU16J, h0, h1]

/-- An optional u32 field holding a serialized u32 parses back to itself. -/
theorem parseOpt_u32 (n : Nat) (h : n < 4294967296) :
    parseOptWith parseU32J (some (.num (n : Int))) = .ok (some n) := by
  rw [show parseOptWith parseU32J (some (.num (n : Int))) =
    (parseU32J (.num (n : Int))).map some from rfl, parseU32J_num n h]
  rfl

/-- An optional u16 field holding a serialized u16 parses back to itself. -/
theorem parseOpt_u16 (n : Nat) (h : n < 65536) :
    parseOptWith parseU16J (some (.num (n : Int))) = .ok (some n) := by
  rw [show parseOptWith parseU16J (some (.num (n : Int))) =
    (parseU16J (.num (n : Int))).map some from rfl, parseU16J_num n h]
  rfl

/-- An optional string field holding a string parses back to itself. -/
theorem parseOpt_str (s : String) :
    parseOptWith parseStrJ (some (.str s)) = .ok (some s) := rfl

/-- A missing optional field parses to an absent value. -/
theorem parseOpt_none (f : Json → Except String α) :
    parseOptWith f none = .ok none := rfl

/-- An optional payload field holding a non-null value parses back to itself;
a null value would instead parse to an absent payload. -/
theorem parseOpt_val (v : Json) (hv : v ≠ .null) :
    parseOptWith (fun v => (.ok v : Except String Json)) (some v) =
      .ok (some v) := by
  cases v with
  | null => exact absurd rfl hv
  | bool b => rfl
  | num n => rfl
  | str s => rfl
  | arr xs => rfl
  | obj fs => rfl

/-- Serializing a strict request and deserializing into the lenient form
recovers exactly the widening of the request, provided its payload value is
not JSON null. -/
theorem fromJson_wsRequest_toJson (r : WsRequest) (hid : r.id < 4294967296)
    (hmd : ∀ v, r.msg_data = some v → v ≠ .null) :
    WsMessage.fromJson (WsRequest.toJson r) = .ok (WsMessage.ofRequest r) := by
  obtain ⟨kind, id, msg, md⟩ := r
  cases md with
  | none =>
    simp only [WsMessage.fromJson, WsRequest.toJson, optField, List.append_nil]
    simp [List.lookup, wsMessageKeys, parseOpt_str, parseOpt_u32 id hid,
      parseOpt_none, except_bind_ok, WsMessage.ofRequest, WsMessage.default]
  | some v =>
    have hv := hmd v rfl
    simp only [WsMessage.fromJson, WsRequest.toJson, optField]
    simp [List.lookup, wsMessageKeys, parseOpt_str, parseOpt_u32 id hid,
      parseOpt_none, parseOpt_val v hv, except_bind_ok, WsMessage.ofRequest,
      WsMessage.default]

/-- Serializing a strict response and deserializing into the lenient form
recovers exactly the widening of the response, provided its payload value is
not JSON null. -/
theorem fromJson_wsResponse_toJson (p : WsResponse)
    (hrid : p.req_id < 4294967296) (hcode : p.code < 65536)
    (hmd : ∀ v, p.msg_data = some v → v ≠ .null) :
    WsMessage.fromJson (WsResponse.toJson p) =
      .ok (WsMessage.ofResponse p) := by
  obtain ⟨kind, req_id, msg, code, md⟩ := p
  cases md with
  | none =>
    simp only [WsMessage.fromJson, WsResponse.toJson, optField, List.append_nil]
    simp [List.lookup, wsMessageKeys, parseOpt_str, parseOpt_u32 req_id hrid,
      parseOpt_u16 code hcode, parseOpt_none, except_bind_ok,
      WsMessage.ofResponse, WsMessage.default]
  | some v =>
    have hv := hmd v rfl
    simp only [WsMessage.fromJson, WsResponse.toJson, optField]
    simp [List.lookup, wsMessageKeys, parseOpt_str, parseOpt_u32 req_id hrid,
      parseOpt_u16 code hcode, parseOpt_none, parseOpt_val v hv,
      except_bind_ok, WsMessage.ofResponse, WsMessage.default]

/-- C5 (amended): for every request or response envelope built by the
constructors, serializing to JSON and deserializing back into the lenient
`WsMessage` form preserves every present field and keeps absent optional
fields absent, except that a msg_data whose serialized value is JSON null
deserializes back as absent; the serialized JSON carries no key at all for an
absent optional field such as an omitted msg_data. -/
theorem ws_envelope_json_roundtrip (id req_id code : Nat) (msg e : String)
    (v : Json) (hid : id < 4294967296) (hrid : req_id < 4294967296)
    (hcode : code < 65536) (hv : v ≠ .null) :
    (WsMessage.fromJson (WsMessage.toJson (WsMessage.simple_request id msg)) =
       .ok (WsMessage.simple_request id msg) ∧
     "msg_data" ∉ (WsMessage.toJson (WsMessage.simple_request id msg)).keys) ∧
    (∀ env, WsMessage.request id msg (.ok v) = .ok env →
      WsMessage.fromJson (WsMessage.toJson env) = .ok env) ∧
    (WsMessage.fromJson
       (WsMessage.toJson (WsMessage.response_json req_id msg v)) =
       .ok (WsMessage.response_json req_id msg v)) ∧
    (WsMessage.fromJson
       (WsMessage.toJson (WsMessage.response req_id msg (.ok v))) =
       .ok (WsMessage.response req_id msg (.ok v))) ∧
    (WsMessage.fromJson
       (WsMessage.toJson (WsMessage.response req_id msg (.error e))) =
       .ok (WsMessage.response req_id msg (.error e))) ∧
    (∀ d env, WsMessage.error req_id code d = some env →
      WsMessage.fromJson (WsMessage.toJson env) = .ok env) ∧
    (∀ r, WsRequest.new id msg (.ok v) = .ok r →
      WsMessage.fromJson (WsRequest.toJson r) = .ok (WsMessage.ofRequest r)) ∧
    (WsMessage.fromJson (WsResponse.toJson (WsResponse.new req_id msg (.ok v))) =
       .ok (WsMessage.ofResponse (WsResponse.new req_id msg (.ok v)))) ∧
    (WsMessage.fromJson (WsResponse.toJson (WsResponse.result req_id code)) =
       .ok (WsMessage.ofResponse (WsResponse.result req_id code)) ∧
     "msg_data" ∉ (WsResponse.toJson (WsResponse.result req_id code)).keys) := by
  have hvf : ∀ w, (some v : Option Json) = some w → w ≠ Json.null := by
    intro w hw
    obtain rfl := Option.some.inj hw
    exact hv
  have hief : ∀ w, (some internalErrorBody : Option Json) = some w →
      w ≠ Json.null := by
    intro w hw
    obtain rfl := Option.some.inj hw
    exact fun hnull => Json.noConfusion hnull
  have hnonef : ∀ w, (none : Option Json) = some w → w ≠ Json.null := by
    intro w hw
    cases hw
  refine ⟨⟨?_, ?_⟩, ?_, ?_, ?_, ?_, ?_, ?_, ?_, ?_, ?_⟩
  · exact fromJson_wsRequest_toJson ⟨"req", id, msg, none⟩ hid hnonef
  · show ("msg_data" : String) ∉ ["kind", "id", "msg"]
    decide
  · intro env h
    obtain rfl : _ = env := Except.ok.inj h
    exact fromJson_wsRequest_toJson ⟨"req", id, msg, some v⟩ hid hvf
  · exact fromJson_wsResponse_toJson ⟨"resp", req_id, msg, 200, some v⟩ hrid
      (show (200 : Nat) < 65536 by decide) hvf
  · exact fromJson_wsResponse_toJson ⟨"resp", req_id, msg, 200, some v⟩ hrid
      (show (200 : Nat) < 65536 by decide) hvf
  · exact fromJson_wsResponse_toJson
      ⟨"resp", req_id, "result", 500, some internalErrorBody⟩ hrid
      (show (500 : Nat) < 65536 by decide) hief
  · intro d env h
    obtain rfl : _ = env := Option.some.inj h
    exact fromJson_wsResponse_toJson
      ⟨"resp", req_id, "result", code,
       some (.obj [("code", .str d.code), ("message", .str d.message)])⟩
      hrid hcode (fun w hw => by
        obtain rfl := Option.some.inj hw
        exact fun hnull => Json.noConfusion hnull)
  · intro r h
    obtain rfl : _ = r := Except.ok.inj h
    exact fromJson_wsRequest_toJson ⟨"req", id, msg, some v⟩ hid hvf
  · exact fromJson_wsResponse_toJson ⟨"resp", req_id, msg, 200, some v⟩ hrid
      (show (200 : Nat) < 65536 by decide) hvf
  · exact fromJson_wsResponse_toJson ⟨"resp", req_id, "result", code, none⟩
      hrid hcode hnonef
  · show ("msg_data" : String) ∉ ["kind", "req_id", "msg", "code"]
    decide

/-- Witness for C5: a concrete request round-trip. -/
theorem ws_envelope_json_roundtrip_witness :
    WsMessage.fromJson (WsMessage.toJson (WsMessage.simple_request 1 "m")) =
      .ok (WsMessage.simple_request 1 "m") :=
  (ws_envelope_json_roundtrip 1 2 404 "m" "err" (.str "x") (by decide)
    (by decide) (by decide) (fun h => Json.noConfusion h)).1.1

/-- Counterexample for C5 as stated: a response whose payload serializes to
JSON null (in Rust, e.g. the unit payload) carries msg_data = Some(Null); it
serializes as a literal null, which deserializes back as an absent msg_data,
so that present field is not preserved by the round trip. -/
theorem ws_roundtrip_null_payload_cex :
    (WsMessage.response 1 "m" (.ok .null)).msg_data = some .null ∧
    WsMessage.fromJson
        (WsMessage.toJson (WsMessage.response 1 "m" (.ok .null))) =
      .ok { kind := some "resp", id := none, req_id := some 1, msg := some "m",
            code := some 200, cat := none, ts := none, msg_data := none,
            extra := [] } :=
  ⟨rfl, rfl⟩

end UcApi
